import Mathlib

/-!
# Verification of the sales-dashboard analytics pipeline

Shallow embedding of the core analytics pipeline of the sales dashboard:

* `loader.py` — schema validation (`REQUIRED_COLUMNS`, the missing-column check
  in `load_data`);
* `data_prep.py` — `prepare_data`: date parsing with strict-format fallback,
  numeric coercion, and the derived `Gross_Margin` / `Margin_%` columns;
* `metrics.py` — `compute_kpis` and the forecast portion of
  `compute_advanced_metrics`.

Modelling conventions:

* machine floats are modelled exactly as rationals (`ℚ`); a missing value
  (`NaN` / `NaT` / `None`) is modelled by `Option.none`;
* calendar dates are integer day numbers with day 0 = 2024-01-01, which is a
  Monday, so `d.emod 7` is the weekday index (0 = Monday … 6 = Sunday);
* the third-party Prophet model is a black box, passed in as a fit/predict
  function that may fail (`Except`), exactly at the boundary where
  `compute_advanced_metrics` calls `Prophet(...).fit(...).predict(...)`.
-/

namespace SalesDashboard

/-! ## Typed rows (the output of `prepare_data`, input of `compute_kpis`) -/

/-- A typed row of the prepared table, restricted to the columns that
`compute_kpis` / `compute_advanced_metrics` read: `Order`, `Name`, `Qty`,
`Nett`, `Margin_%`, `Entered`, `Sent`.  `none` models a missing value. -/
structure TypedRow where
  order : Option String
  name : Option String
  qty : Option ℚ
  nett : Option ℚ
  marginPct : Option ℚ
  entered : Option Int
  sent : Option Int
deriving Repr, DecidableEq

/-- Weekday test: day numbers are anchored so that `d.emod 7 = 0` is Monday;
Monday–Friday are business days (`pd.bdate_range`'s default `freq='B'`). -/
def isBusinessDay (d : Int) : Bool := d.emod 7 < 5

/-- All calendar days of the inclusive range `[s, e]` (empty when `e < s`). -/
def rangeDays (s e : Int) : List Int :=
  (List.range (e + 1 - s).toNat).map (fun i => s + i)

/-- `pd.bdate_range(entered, sent, holidays=uk_holidays)` from
`metrics.compute_kpis.business_days`.  With the default `freq='B'`,
`pd.bdate_range` uses the `holidays` argument only when a custom `'C'`
frequency is passed; a truthy `holidays` raises `ValueError`, a falsy one is
silently ignored.  `get_uk_holidays()` returns
`holidays.country_holidays('GB')`, a lazily-populated dict that is never
queried anywhere in the program and is therefore still empty (falsy) at every
call: the range is plain Monday–Friday days, with no holiday excluded. -/
def bdateRange (s e : Int) : List Int :=
  (rangeDays s e).filter isBusinessDay

/-- `business_days(row)` from `metrics.compute_kpis`: `None` when either date
is missing, else `len(days) - 1` when the business-day range is non-empty,
else `0`. -/
def businessDaysRow (r : TypedRow) : Option ℚ :=
  match r.entered, r.sent with
  | some e, some s =>
      some (if (bdateRange e s).length > 0 then ((bdateRange e s).length : ℚ) - 1 else 0)
  | _, _ => none

/-- The KPI record returned by `metrics.compute_kpis`.  `avgMargin` is an
`Option` because `Series.mean()` of a non-empty all-`NaN` column is `NaN`
(modelled `none`); the other entries are always numbers. -/
structure KPIs where
  totalNett : ℚ
  totalOrders : Nat
  totalUnits : ℚ
  avgOrderValue : ℚ
  avgMargin : Option ℚ
  avgTurnaround : ℚ
deriving Repr, DecidableEq

/-- `Series.mean()`: `NaN` (`none`) on an empty series, else the mean of the
non-missing values (pandas skips `NaN` before averaging). -/
def seriesMean (l : List ℚ) : Option ℚ :=
  if l.isEmpty then none else some (l.sum / l.length)

/-- `metrics.compute_kpis`, line for line:
* `total_nett = df['Nett'].sum()` — pandas `sum` skips `NaN`, `0` on empty;
* `total_orders = pd.Series(df['Order'].unique()).nunique()` — the number of
  distinct non-null `Order` values (`nunique` drops `NaN`);
* `total_units = df['Qty'].sum()`;
* `avg_order_value = total_nett / total_orders if total_orders else 0`;
* `avg_margin = df['Margin_%'].mean() if not df.empty else 0`;
* `avg_turnaround`: mean of the non-`None` `business_days` row values, `0`
  when none qualify. -/
def computeKpis (df : List TypedRow) : KPIs :=
  let totalNett := (df.filterMap TypedRow.nett).sum
  let totalOrders := (df.filterMap TypedRow.order).dedup.length
  let totalUnits := (df.filterMap TypedRow.qty).sum
  let avgOrderValue := if totalOrders ≠ 0 then totalNett / (totalOrders : ℚ) else 0
  let avgMargin := if df.isEmpty then some 0 else seriesMean (df.filterMap TypedRow.marginPct)
  let turnaroundVals := df.filterMap businessDaysRow
  let avgTurnaround := if turnaroundVals.isEmpty then 0 else turnaroundVals.sum / turnaroundVals.length
  ⟨totalNett, totalOrders, totalUnits, avgOrderValue, avgMargin, avgTurnaround⟩

/-! ## Claim C1: the turnaround calculation and the holiday calendar -/

/-- Modelled from the spec: the "fixed national holiday calendar" (GB) that
the turnaround KPI is claimed to exclude.  Only the calendar dates exercised
in this development are listed; New Year's Day 2024-01-01 (day 0, a Monday)
is a GB national holiday. -/
def ukHolidaysGB : List Int := [0]

/-- The claim's per-range value: the number of business days (Monday–Friday,
excluding the GB holiday calendar) in the inclusive range `[e, s]`. -/
def specBusinessDayCount (e s : Int) : ℕ :=
  ((Finset.Icc e s).filter (fun d => isBusinessDay d ∧ d ∉ ukHolidaysGB)).card

/-- The claim's per-row turnaround: holiday-excluding business-day count
minus 1; `none` (excluded) when either date is missing. -/
def specRowTurnaround (r : TypedRow) : Option ℚ :=
  match r.entered, r.sent with
  | some e, some s => some ((specBusinessDayCount e s : ℚ) - 1)
  | _, _ => none

/-- The claim's `Average Turnaround`: mean of the qualifying per-row values,
`0` when no row qualifies. -/
def specAvgTurnaround (df : List TypedRow) : ℚ :=
  let vals := df.filterMap specRowTurnaround
  if vals.isEmpty then 0 else vals.sum / vals.length

/-- A one-row table: `Entered` = 2024-01-01 (day 0, a Monday and a GB
national holiday), `Sent` = 2024-01-02 (day 1, a Tuesday). -/
def holidayRow : TypedRow :=
  ⟨some "A1", some "X", some 1, some 10, some 50, some 0, some 1⟩

/-- A row with a missing `Order` value. -/
def nullOrderRow : TypedRow := ⟨none, some "X", some 2, some 5, none, none, none⟩

/-! ## The forecast portion of `metrics.compute_advanced_metrics`

`compute_advanced_metrics` groups the table by `Entered` into two daily
series (`daily` = summed `Nett`, `daily_orders` = distinct `Order` count),
and fits a Prophet model to each only when both have more than 10 rows;
otherwise it stores four empty series.  Prophet is a third-party black box,
so it is modelled as a fit/predict function parameter that may fail. -/

/-- Insertion sort on day numbers (`groupby` sorts its keys). -/
def insertSorted (x : Int) : List Int → List Int
  | [] => [x]
  | y :: ys => if x ≤ y then x :: y :: ys else y :: insertSorted x ys

/-- Sort a list of day numbers ascending. -/
def sortInts (l : List Int) : List Int := l.foldr insertSorted []

/-- The sorted distinct non-null `Entered` dates: the group keys of
`df.groupby('Entered')` (pandas drops null keys and sorts). -/
def observedDays (df : List TypedRow) : List Int :=
  sortInts (df.filterMap TypedRow.entered).dedup

/-- `daily = df.groupby('Entered')['Nett'].sum().sort_index()`, as the
`(ds, y)` pairs of `forecast_df`. -/
def dailyNett (df : List TypedRow) : List (Int × ℚ) :=
  (observedDays df).map (fun d =>
    (d, ((df.filter (fun r => r.entered = some d)).filterMap TypedRow.nett).sum))

/-- `daily_orders = df.groupby('Entered')['Order'].nunique().sort_index()`,
as the `(ds, y)` pairs of `forecast_orders_df`. -/
def dailyOrders (df : List TypedRow) : List (Int × ℚ) :=
  (observedDays df).map (fun d =>
    ((d : Int),
      (((df.filter (fun r => r.entered = some d)).filterMap TypedRow.order).dedup.length : ℚ)))

/-- The three prediction columns `yhat`, `yhat_lower`, `yhat_upper` of a
fitted Prophet model's `predict` output, indexed by `ds`. -/
structure FitOutcome where
  yhat : List (Int × ℚ)
  yhatLower : List (Int × ℚ)
  yhatUpper : List (Int × ℚ)
deriving Repr, DecidableEq

/-- Black box for `Prophet(interval_width=0.95, daily_seasonality=True)`
followed by `.fit(series)`, `.make_future_dataframe(periods=horizon)` and
`.predict(...)`: maps the training series and horizon either to the
prediction columns or to a raised error (`Except.error`), e.g. numerical
non-convergence during fitting. -/
abbrev FitPredict := List (Int × ℚ) → Nat → Except String FitOutcome

/-- The four forecast entries of the `results` dict. -/
structure ForecastOutputs where
  forecast : List (Int × ℚ)
  forecastLower : List (Int × ℚ)
  forecastUpper : List (Int × ℚ)
  forecastOrders : List (Int × ℚ)
deriving Repr, DecidableEq

/-- The forecast portion of `metrics.compute_advanced_metrics`: when
`len(forecast_df) > 10 and len(forecast_orders_df) > 10`, fit and predict
the `Nett` model, then the orders model — with **no** `try`/`except`
anywhere, so a raised fitting error propagates (modelled by the `Except`
bind); otherwise store four empty series. -/
def advancedForecast (fitPredict : FitPredict) (df : List TypedRow)
    (forecastDays : Nat) : Except String ForecastOutputs :=
  if (dailyNett df).length > 10 ∧ (dailyOrders df).length > 10 then do
    let nett ← fitPredict (dailyNett df) forecastDays
    let orders ← fitPredict (dailyOrders df) forecastDays
    pure ⟨nett.yhat, nett.yhatLower, nett.yhatUpper, orders.yhat⟩
  else
    pure ⟨[], [], [], []⟩

/-- A fit/predict black box that always raises. -/
def failingFit : FitPredict := fun _ _ => .error "fit failed"

/-- A minimal typed row whose `Entered` date is day `d`. -/
def shortRow (d : Int) : TypedRow :=
  ⟨some "A1", some "X", some 1, some 5, none, some d, none⟩

/-! ## Claim C2: fitting failures at the Forecaster boundary -/

/-- An 11-day table: enough history for the fitting branch to run. -/
def elevenDayTable : List TypedRow := (List.range 11).map (fun i => shortRow i)

/-! ## `loader.py`: the required-column check of `load_data` -/

/-- `loader.REQUIRED_COLUMNS` (the identical list also appears in
`config.py`).  The column between `Reference` and `FOC` is the P-list
column, whose name contains a single-quote character, written here with a
hex escape. -/
def REQUIRED_COLUMNS : List String :=
  ["Order", "Account", "Name", "Address", "Description", "Type", "Entered", "Sent",
   "Qty", "List", "Nett", "Cost", "Route", "Reference", "P\x27list", "FOC", "O/T", "Promo"]

/-- `missing = [col for col in REQUIRED_COLUMNS if col not in df.columns]`
from `loader.load_data`. -/
def missingColumns (cols : List String) : List String :=
  REQUIRED_COLUMNS.filter (fun c => decide (c ∉ cols))

/-- The schema check at the end of `loader.load_data`: raise
`ValueError(f"Missing required columns: {', '.join(missing)}")` when the
missing list is non-empty, else hand the table on. -/
def validateSchema (cols : List String) : Except String Unit :=
  if missingColumns cols = [] then Except.ok ()
  else Except.error ("Missing required columns: " ++ String.intercalate ", " (missingColumns cols))

/-- A concrete column set: all required columns except `Entered` and `Nett`,
plus an unrelated extra column. -/
def witnessCols : List String :=
  ["Order", "Account", "Name", "Address", "Description", "Type", "Sent",
   "Qty", "List", "Cost", "Route", "Reference", "P\x27list", "FOC", "O/T", "Promo", "Extra"]

/-! ## `data_prep.py`: the `prepare_data` normalisation transform

A raw table is a list of rows, each row an association list from column
name to cell value.  A `Cell` is a raw string, a parsed date (day number),
a parsed number, or a missing value (`NaN`/`NaT`/`None`, all `Cell.null`).
The categorical `astype('category')` conversions change only the column
dtype, never a cell's value, so they are the identity in this value-level
model (`CATEGORICAL_COLS` is kept for reference). -/

/-- One cell of the table. -/
inductive Cell where
  | null : Cell
  | str : String → Cell
  | date : Int → Cell
  | num : ℚ → Cell
deriving Repr, DecidableEq

/-- A row: association list from column name to cell. -/
abbrev Row := List (String × Cell)

/-- A table: its column names and its rows. -/
structure Table where
  cols : List String
  rows : List Row
deriving Repr, DecidableEq

/-- Read a cell (`df[col]` at one row); a missing entry reads as missing. -/
def getCell (r : Row) (c : String) : Cell :=
  match r.find? (fun p => decide (p.1 = c)) with
  | some p => p.2
  | none => Cell.null

/-- Whether the row has an entry for column `c`. -/
def hasCol (r : Row) (c : String) : Bool :=
  r.any (fun p => decide (p.1 = c))

/-- Column assignment at one row (`df[col] = ...` / `df.loc[:, col] = ...`):
overwrite in place when the column exists, append it otherwise. -/
def setCell (r : Row) (c : String) (v : Cell) : Row :=
  if hasCol r c then
    r.map (fun p => if p.1 = c then (c, v) else p)
  else
    r ++ [(c, v)]

/-- Add a column name to the column list when not already present. -/
def addColName (cols : List String) (c : String) : List String :=
  if c ∈ cols then cols else cols ++ [c]

/-- Column assignment at table level: every row gets the value `g` computes
from it; the column name is appended to the column list when new. -/
def setColumn (t : Table) (c : String) (g : Row → Cell) : Table :=
  ⟨addColName t.cols c, t.rows.map (fun r => setCell r c (g r))⟩

/-! ### Date parsing (`%d/%m/%Y` and `%d/%m/%Y %H:%M:%S`, with lenient
day-first fallback) -/

/-- Split a character list at a separator character. -/
def splitChar (sep : Char) : List Char → List (List Char)
  | [] => [[]]
  | ch :: rest =>
      match splitChar sep rest with
      | [] => if ch = sep then [[], []] else [[ch]]
      | h :: t => if ch = sep then [] :: h :: t else (ch :: h) :: t

/-- Numeric value of a digit string. -/
def digitsVal (cs : List Char) : Nat :=
  cs.foldl (fun n ch => n * 10 + (ch.toNat - 48)) 0

/-- Non-empty and all decimal digits. -/
def isDigits (cs : List Char) : Bool :=
  decide (cs ≠ []) && cs.all Char.isDigit

/-- Gregorian leap-year test. -/
def isLeapYear (y : Nat) : Bool :=
  (y % 4 == 0 && y % 100 != 0) || y % 400 == 0

/-- Days in a month (`strptime` rejects out-of-range days). -/
def daysInMonth (y m : Nat) : Nat :=
  if m = 2 then (if isLeapYear y then 29 else 28)
  else if m = 4 ∨ m = 6 ∨ m = 9 ∨ m = 11 then 30
  else 31

/-- Day count of a Gregorian date from the civil epoch 0000-03-01
(Hinnant's days-from-civil algorithm, restricted to years ≥ 1). -/
def daysFromCivil (y m d : Nat) : Nat :=
  let ya := if m ≤ 2 then y - 1 else y
  let era := ya / 400
  let yoe := ya % 400
  let mp := if 2 < m then m - 3 else m + 9
  let doy := (153 * mp + 2) / 5 + (d - 1)
  let doe := yoe * 365 + yoe / 4 - yoe / 100 + doy
  era * 146097 + doe

/-- Day number of a date, anchored so that 2024-01-01 (a Monday) is day 0. -/
def epochDay (y m d : Nat) : Int :=
  (daysFromCivil y m d : Int) - (daysFromCivil 2024 1 1 : Int)

/-- Strict parse of a date string against `"%d/%m/%Y"`: day and month of one
or two digits, four-digit year, and a valid calendar date (as `strptime`
checks). -/
def parseDMY (s : String) : Option Int :=
  match splitChar '/' s.data with
  | [ds, ms, ys] =>
      if isDigits ds && isDigits ms && isDigits ys
          && decide (ds.length ≤ 2) && decide (ms.length ≤ 2) && decide (ys.length = 4) then
        let d := digitsVal ds
        let m := digitsVal ms
        let y := digitsVal ys
        if decide (1 ≤ m) && decide (m ≤ 12) && decide (1 ≤ d) && decide (d ≤ daysInMonth y m) then
          some (epochDay y m d)
        else none
      else none
  | _ => none

/-- A valid `%H:%M:%S` time-of-day string. -/
def validTime (cs : List Char) : Bool :=
  match splitChar ':' cs with
  | [hs, ms, ss] =>
      isDigits hs && isDigits ms && isDigits ss
        && decide (digitsVal hs ≤ 23) && decide (digitsVal ms ≤ 59) && decide (digitsVal ss ≤ 59)
  | _ => false

/-- Strict parse against `"%d/%m/%Y %H:%M:%S"`.  Cells are modelled at day
granularity, so the validated time-of-day is discarded. -/
def parseDMYTime (s : String) : Option Int :=
  match splitChar ' ' s.data with
  | [dpart, tpart] =>
      if validTime tpart then parseDMY (String.mk dpart) else none
  | _ => none

/-- ISO `yyyy-mm-dd`, one of the forms the lenient parser accepts. -/
def parseISO (s : String) : Option Int :=
  match splitChar '-' s.data with
  | [ys, ms, ds] =>
      if isDigits ds && isDigits ms && isDigits ys
          && decide (ds.length ≤ 2) && decide (ms.length ≤ 2) && decide (ys.length = 4) then
        let d := digitsVal ds
        let m := digitsVal ms
        let y := digitsVal ys
        if decide (1 ≤ m) && decide (m ≤ 12) && decide (1 ≤ d) && decide (d ≤ daysInMonth y m) then
          some (epochDay y m d)
        else none
      else none
  | _ => none

/-- The lenient fallback `pd.to_datetime(col, errors='coerce',
dayfirst=True)` on one string: best-effort day-first parsing, `NaT` on
failure.  Modelled on the date shapes that occur in this pipeline
(day-first slashed dates, optionally with a time, and ISO dates). -/
def parseLenientDate (s : String) : Option Int :=
  match parseDMY s with
  | some d => some d
  | none =>
      match parseDMYTime s with
      | some d => some d
      | none => parseISO s

/-- Whether `pd.to_datetime(col, format=fmt, errors='raise')` accepts a
cell: missing values parse to `NaT`, already-parsed datetimes pass through
unchanged, strings must match the format; a numeric cell raises. -/
def strictDateOk (fmt : String → Option Int) : Cell → Bool
  | Cell.null => true
  | Cell.date _ => true
  | Cell.str s => (fmt s).isSome
  | Cell.num _ => false

/-- The per-cell result of a successful strict-format column parse. -/
def strictDateParse (fmt : String → Option Int) : Cell → Cell
  | Cell.null => Cell.null
  | Cell.date d => Cell.date d
  | Cell.str s =>
      match fmt s with
      | some d => Cell.date d
      | none => Cell.null
  | Cell.num _ => Cell.null

/-- The per-cell result of the lenient `errors='coerce'` fallback:
already-parsed dates and missing values are unchanged, strings parse
best-effort to a date or coerce to `NaT`; other cells coerce to `NaT`. -/
def lenientDateParse : Cell → Cell
  | Cell.null => Cell.null
  | Cell.date d => Cell.date d
  | Cell.str s =>
      match parseLenientDate s with
      | some d => Cell.date d
      | none => Cell.null
  | Cell.num _ => Cell.null

/-- The per-cell parse function the date loop of `prepare_data` settles on
for a column: the first strict format under which the *whole* column parses
(`errors='raise'` is all-or-nothing), else the lenient coercing fallback. -/
def dateColumnFn (cells : List Cell) : Cell → Cell :=
  if cells.all (strictDateOk parseDMY) then strictDateParse parseDMY
  else if cells.all (strictDateOk parseDMYTime) then strictDateParse parseDMYTime
  else lenientDateParse

/-- One iteration of the date loop of `prepare_data` on column `c`. -/
def parseDateCol (t : Table) (c : String) : Table :=
  setColumn t c (fun r => dateColumnFn (t.rows.map (fun row => getCell row c)) (getCell r c))

/-! ### Numeric coercion and the derived margin columns -/

/-- Strip leading and trailing spaces. -/
def trimSpaces (cs : List Char) : List Char :=
  ((cs.dropWhile (fun ch => ch = ' ')).reverse.dropWhile (fun ch => ch = ' ')).reverse

/-- Plain decimal literal: optional sign, digits, optional fractional part
(the numeric shapes occurring in this data; `float()` accepts more). -/
def parseDecimalCore (cs : List Char) : Option ℚ :=
  match splitChar '.' cs with
  | [ip] => if isDigits ip then some ((digitsVal ip : ℚ)) else none
  | [ip, fp] =>
      if (ip.all Char.isDigit) && isDigits fp then
        some ((digitsVal ip : ℚ) + (digitsVal fp : ℚ) / ((10 : ℚ) ^ fp.length))
      else none
  | _ => none

/-- `pd.to_numeric(value, errors='coerce')` on one string. -/
def parseDecimal (s : String) : Option ℚ :=
  match trimSpaces s.data with
  | '-' :: cs => (parseDecimalCore cs).map (fun q => -q)
  | '+' :: cs => parseDecimalCore cs
  | cs => parseDecimalCore cs

/-- `pd.to_numeric(col, errors='coerce')` on one cell: numbers and missing
values are unchanged, strings parse or coerce to `NaN`; a datetime cell
does not occur on the numeric columns of this pipeline and is modelled as
coerced. -/
def toNumericCell : Cell → Cell
  | Cell.null => Cell.null
  | Cell.num q => Cell.num q
  | Cell.str s =>
      match parseDecimal s with
      | some q => Cell.num q
      | none => Cell.null
  | Cell.date _ => Cell.null

/-- `config.NUMERIC_COLS`. -/
def NUMERIC_COLS : List String := ["Qty", "List", "Nett", "Cost"]

/-- `config.CATEGORICAL_COLS` (their `astype('category')` conversion is
value-preserving, hence the identity in this model). -/
def CATEGORICAL_COLS : List String :=
  ["Order", "Account", "Name", "Address", "Description", "Type", "Route",
   "Reference", "P\x27list", "FOC", "O/T", "Promo"]

/-- One iteration of the numeric loop of `prepare_data` on column `c`. -/
def coerceNumericCol (t : Table) (c : String) : Table :=
  setColumn t c (fun r => toNumericCell (getCell r c))

/-- Round half to even (the rounding of `np.round`). -/
def roundHalfEven (q : ℚ) : ℤ :=
  let f := ⌊q⌋
  if q - f < 1/2 then f
  else if 1/2 < q - f then f + 1
  else if f % 2 = 0 then f else f + 1

/-- `np.round(x, 1)`: round to one decimal place, half to even.  Machine
floats are modelled as exact rationals. -/
def round1 (q : ℚ) : ℚ := (roundHalfEven (q * 10) : ℚ) / 10

/-- `df['Nett'] - df['Cost']` on one row: `NaN` propagates. -/
def cellSub : Cell → Cell → Cell
  | Cell.num a, Cell.num b => Cell.num (a - b)
  | _, _ => Cell.null

/-- The mask `df['Nett'] != 0`: `True` for every non-zero number, and also
for a missing value (`NaN != 0` is `True` in pandas). -/
def nettNonzeroMask : Cell → Bool
  | Cell.num q => decide (q ≠ 0)
  | _ => true

/-- The two-step `Margin_%` assignment of `prepare_data`: initialise the
column to `np.nan`, then assign
`np.round(df['Gross_Margin'] / df['Nett'] * 100, 1)` on the masked rows.
Rows outside the mask keep `NaN`; on a masked row the value is `NaN`
whenever `Gross_Margin` or `Nett` is `NaN`. -/
def marginCell (nett gm : Cell) : Cell :=
  if nettNonzeroMask nett then
    match gm, nett with
    | Cell.num g, Cell.num n => Cell.num (round1 (g / n * 100))
    | _, _ => Cell.null
  else Cell.null

/-- `data_prep.prepare_data`: parse `Entered` and `Sent` (strict formats
with lenient fallback), coerce `NUMERIC_COLS` to numbers, convert
`CATEGORICAL_COLS` in place (value-preserving, identity here), then derive
`Gross_Margin = Nett - Cost` and the masked `Margin_%`. -/
def prepare_data (t : Table) : Table :=
  let t2 := parseDateCol (parseDateCol t "Entered") "Sent"
  let t3 := NUMERIC_COLS.foldl coerceNumericCol t2
  let t4 := setColumn t3 "Gross_Margin"
    (fun r => cellSub (getCell r "Nett") (getCell r "Cost"))
  setColumn t4 "Margin_%"
    (fun r => marginCell (getCell r "Nett") (getCell r "Gross_Margin"))

/-! ### Definitions supporting the idempotence and frame-effect claims -/

/-- The eight columns `prepare_data` assigns, in assignment order. -/
def PREP_COLS : List String :=
  ["Entered", "Sent", "Qty", "List", "Nett", "Cost", "Gross_Margin", "Margin_%"]

/-- A row has no duplicate column keys (always true of a pandas row). -/
abbrev NodupKeys (r : Row) : Prop := (r.map Prod.fst).Nodup

/-- A parsed date cell or a missing value. -/
def dateOrNull : Cell → Bool
  | Cell.null => true
  | Cell.date _ => true
  | _ => false

/-- A numeric cell or a missing value. -/
def numOrNull : Cell → Bool
  | Cell.null => true
  | Cell.num _ => true
  | _ => false

/-- The per-row effect of the date and numeric stages of `prepare_data`
(once the two column-level date parse functions `fE` for `Entered` and `fS`
for `Sent` are fixed): six column assignments in source order. -/
def prepRowA (fE fS : Cell → Cell) (r : Row) : Row :=
  let r1 := setCell r "Entered" (fE (getCell r "Entered"))
  let r2 := setCell r1 "Sent" (fS (getCell r1 "Sent"))
  let r3 := setCell r2 "Qty" (toNumericCell (getCell r2 "Qty"))
  let r4 := setCell r3 "List" (toNumericCell (getCell r3 "List"))
  let r5 := setCell r4 "Nett" (toNumericCell (getCell r4 "Nett"))
  setCell r5 "Cost" (toNumericCell (getCell r5 "Cost"))

/-- The per-row effect up to the `Gross_Margin` assignment. -/
def prepRowB (fE fS : Cell → Cell) (r : Row) : Row :=
  let r6 := prepRowA fE fS r
  setCell r6 "Gross_Margin" (cellSub (getCell r6 "Nett") (getCell r6 "Cost"))

/-- The complete per-row effect of `prepare_data`: the eight column
assignments in source order. -/
def prepRow (fE fS : Cell → Cell) (r : Row) : Row :=
  let r7 := prepRowB fE fS r
  setCell r7 "Margin_%" (marginCell (getCell r7 "Nett") (getCell r7 "Gross_Margin"))

/-- What holds of every row of a prepared table. -/
def PreparedRow (r : Row) : Prop :=
  NodupKeys r ∧
  (∀ c ∈ PREP_COLS, hasCol r c = true) ∧
  dateOrNull (getCell r "Entered") = true ∧
  dateOrNull (getCell r "Sent") = true ∧
  numOrNull (getCell r "Qty") = true ∧
  numOrNull (getCell r "List") = true ∧
  numOrNull (getCell r "Nett") = true ∧
  numOrNull (getCell r "Cost") = true ∧
  getCell r "Gross_Margin" = cellSub (getCell r "Nett") (getCell r "Cost") ∧
  getCell r "Margin_%" = marginCell (getCell r "Nett") (getCell r "Gross_Margin")

/-- A concrete raw table with typical string-valued cells. -/
def idemWitnessTable : Table :=
  ⟨["Order", "Entered", "Sent", "Qty", "List", "Nett", "Cost"],
   [[("Order", Cell.str "A1"), ("Entered", Cell.str "05/01/2024"),
     ("Sent", Cell.str "08/01/2024"), ("Qty", Cell.str "2"),
     ("List", Cell.str "5"), ("Nett", Cell.str "10"), ("Cost", Cell.str "4")]]⟩

/-- A concrete raw table with all required columns and one row. -/
def frameWitnessTable : Table :=
  ⟨REQUIRED_COLUMNS, [[("Nett", Cell.str "10"), ("Cost", Cell.str "4")]]⟩

/-- A one-row raw table whose `Nett` cell is the string `"0"`. -/
def zeroNettTable : Table := ⟨["Nett"], [[("Nett", Cell.str "0")]]⟩

/-- The row `prepare_data` produces from `zeroNettTable`. -/
def zeroNettPrepared : Row :=
  [("Nett", Cell.num 0), ("Entered", Cell.null), ("Sent", Cell.null),
   ("Qty", Cell.null), ("List", Cell.null), ("Cost", Cell.null),
   ("Gross_Margin", Cell.null), ("Margin_%", Cell.null)]

/-! # Theorems -/

/-! ## Claim C6: `compute_kpis` on an empty table -/

/-- **C6.** `compute_kpis` applied to an empty table (zero rows) is defined
(no exception) and returns `Total Orders = 0`, `Average Order Value = 0`
(the division by `Total Orders` is guarded by `if total_orders else 0`),
`Average Margin % = 0` and `Average Turnaround = 0`. -/
theorem compute_kpis_empty_table :
    (computeKpis []).totalOrders = 0 ∧
    (computeKpis []).avgOrderValue = 0 ∧
    (computeKpis []).avgMargin = some 0 ∧
    (computeKpis []).avgTurnaround = 0 := by
  refine ⟨rfl, rfl, rfl, rfl⟩

/-! ## Claim C4: distinct-order counting vs whole-table unit sum -/

/-- **C4.** `Total Orders` is the number of distinct (non-null) `Order`
values — a set cardinality, not a row count — while `Total Units Sold` sums
`Qty` over every row, with no row excluded and no deduplication (a missing
`Qty` contributes `0`, as pandas `sum` does). -/
theorem total_orders_distinct_and_units_sum (df : List TypedRow) :
    (computeKpis df).totalOrders = (df.filterMap TypedRow.order).toFinset.card ∧
    (computeKpis df).totalUnits = (df.map (fun r => r.qty.getD 0)).sum := by
  constructor
  · show (df.filterMap TypedRow.order).dedup.length = _
    exact (List.card_toFinset _).symm
  · show (df.filterMap TypedRow.qty).sum = _
    induction df with
    | nil => rfl
    | cons r t ih =>
        cases h : r.qty with
        | none => simp [List.filterMap_cons, h, ih]
        | some q => simp [List.filterMap_cons, h, ih]

/-- **C1 (code bug).** On the failing input `holidayRow` the code returns
`Average Turnaround = 1`: `pd.bdate_range(..., holidays=uk_holidays)` with
the default `freq='B'` never applies the holiday calendar (the lazily-built
GB calendar is an empty dict when passed, so it is silently ignored; were it
populated, `bdate_range` would raise `ValueError` instead), so the holiday
Monday 2024-01-01 is counted as a business day.  The claim's
holiday-excluding computation yields `0`. -/
theorem turnaround_holidays_ignored :
    (computeKpis [holidayRow]).avgTurnaround = 1 ∧
    specAvgTurnaround [holidayRow] = 0 ∧
    (computeKpis [holidayRow]).avgTurnaround ≠ specAvgTurnaround [holidayRow] := by
  have hb : businessDaysRow holidayRow = some 1 := by
    have hlen : (bdateRange 0 1).length = 2 := rfl
    norm_num [businessDaysRow, holidayRow, hlen]
  have hs : specRowTurnaround holidayRow = some 0 := by
    have hcnt : specBusinessDayCount 0 1 = 1 := by decide
    norm_num [specRowTurnaround, holidayRow, hcnt]
  refine ⟨?_, ?_, ?_⟩ <;>
    norm_num [computeKpis, specAvgTurnaround, List.filterMap_cons, hb, hs]

/-! ## Claim C10: null `Order` values and the distinct-order count -/

/-- **C10.** `Total Orders` counts only non-null `Order` values
(`Series.nunique` drops `NaN`): a table whose rows all have a missing
`Order` yields `Total Orders = 0`, and hence (by the division guard)
`Average Order Value = 0`. -/
theorem total_orders_null_excluded (df : List TypedRow)
    (h : ∀ r ∈ df, r.order = none) :
    (computeKpis df).totalOrders = 0 ∧ (computeKpis df).avgOrderValue = 0 := by
  have horders : df.filterMap TypedRow.order = [] := by
    rw [List.filterMap_eq_nil_iff]; exact h
  simp [computeKpis, horders]

/-- Witness for C10 at a concrete two-row all-null-`Order` table. -/
theorem total_orders_null_excluded_witness :
    (computeKpis [nullOrderRow, nullOrderRow]).totalOrders = 0 ∧
    (computeKpis [nullOrderRow, nullOrderRow]).avgOrderValue = 0 :=
  total_orders_null_excluded [nullOrderRow, nullOrderRow] (by decide)

theorem insertSorted_length (x : Int) (l : List Int) :
    (insertSorted x l).length = l.length + 1 := by
  induction l with
  | nil => rfl
  | cons y ys ih => by_cases h : x ≤ y <;> simp [insertSorted, h, ih]

theorem sortInts_length (l : List Int) : (sortInts l).length = l.length := by
  induction l with
  | nil => rfl
  | cons x xs ih => simp [sortInts, insertSorted_length] at ih ⊢; omega

theorem dailyNett_length (df : List TypedRow) :
    (dailyNett df).length = (observedDays df).length := by
  simp [dailyNett]

/-! ## Claim C3: insufficient history yields the empty degraded result -/

/-- **C3.** When the table has 10 or fewer observed days (distinct non-null
`Entered` dates, which is the common length of both daily target series),
`compute_advanced_metrics` never attempts a fit — the result is the same for
every fit/predict function, including ones that always raise — and returns
empty `forecast`, `forecast_lower`, `forecast_upper`, `forecast_orders`
without raising (`Except.ok`). -/
theorem advanced_metrics_insufficient_history (fitPredict : FitPredict)
    (df : List TypedRow) (forecastDays : Nat)
    (h : (observedDays df).length ≤ 10) :
    advancedForecast fitPredict df forecastDays = .ok ⟨[], [], [], []⟩ := by
  unfold advancedForecast
  rw [if_neg]
  · rfl
  · rintro ⟨hgt, -⟩
    rw [dailyNett_length] at hgt
    omega

/-- Witness for C3: a two-day history returns the empty degraded result even
under an always-raising fitter. -/
theorem advanced_metrics_insufficient_history_witness :
    (observedDays [shortRow 0, shortRow 1]).length ≤ 10 ∧
    advancedForecast failingFit [shortRow 0, shortRow 1] 30 = .ok ⟨[], [], [], []⟩ :=
  ⟨by decide, advanced_metrics_insufficient_history failingFit [shortRow 0, shortRow 1] 30 (by decide)⟩

/-- **C2 (counterexample).** With 11 observed days and a fitter that raises,
`compute_advanced_metrics` does *not* return the empty-series degraded
result: the error propagates to the caller (there is no `try`/`except`
around the Prophet calls), refuting the claim that a fitting failure is
always caught at the boundary. -/
theorem fit_failure_not_caught_cex :
    advancedForecast failingFit elevenDayTable 30 = .error "fit failed" := by
  have hcond : (dailyNett elevenDayTable).length > 10 ∧
      (dailyOrders elevenDayTable).length > 10 := by
    constructor <;> simp [dailyNett, dailyOrders] <;> decide
  rw [advancedForecast.eq_def, if_pos hcond]
  rfl

/-- **C2 (amended).** In `compute_advanced_metrics` a model-fitting failure
is *not* caught: whenever both daily series are long enough for the fitting
branch to run and the fit/predict call on the daily `Nett` series raises,
the same error propagates out of `compute_advanced_metrics`; the
empty-series degraded result arises only from the insufficient-history
branch. -/
theorem fit_failure_propagates (fitPredict : FitPredict) (df : List TypedRow)
    (forecastDays : Nat) (e : String)
    (h10 : (observedDays df).length > 10)
    (hfit : fitPredict (dailyNett df) forecastDays = .error e) :
    advancedForecast fitPredict df forecastDays = .error e := by
  have hcond : (dailyNett df).length > 10 ∧ (dailyOrders df).length > 10 := by
    constructor <;> simp [dailyNett, dailyOrders] <;> omega
  rw [advancedForecast.eq_def, if_pos hcond, hfit]
  rfl

/-- Witness for the amended C2 at the concrete 11-day table and the
always-raising fitter. -/
theorem fit_failure_propagates_witness :
    advancedForecast failingFit elevenDayTable 7 = .error "fit failed" :=
  fit_failure_propagates failingFit elevenDayTable 7 "fit failed" (by decide) rfl

/-! ## Claim C7: schema validation names exactly the missing columns -/

/-- **C7.** For any set of loaded column names: validation passes iff every
required column is present; otherwise it fails with a message that
comma-joins exactly the missing required columns (membership iff), in the
order of the fixed required-column list (a sublist of `REQUIRED_COLUMNS`),
regardless of which other columns are present. -/
theorem validate_schema_exact_missing (cols : List String) :
    (validateSchema cols = Except.ok () ↔ ∀ c ∈ REQUIRED_COLUMNS, c ∈ cols) ∧
    (∀ msg, validateSchema cols = Except.error msg →
      ∃ missing, msg = "Missing required columns: " ++ String.intercalate ", " missing ∧
        missing.Sublist REQUIRED_COLUMNS ∧
        ∀ c, c ∈ missing ↔ (c ∈ REQUIRED_COLUMNS ∧ c ∉ cols)) := by
  have hmem : ∀ c, c ∈ missingColumns cols ↔ (c ∈ REQUIRED_COLUMNS ∧ c ∉ cols) := by
    intro c
    simp [missingColumns, List.mem_filter]
  constructor
  · constructor
    · intro hok c hc
      by_contra hnc
      have hne : missingColumns cols ≠ [] := by
        intro hnil
        have hin := (hmem c).mpr ⟨hc, hnc⟩
        rw [hnil] at hin
        exact absurd hin (List.not_mem_nil c)
      rw [validateSchema, if_neg hne] at hok
      exact Except.noConfusion hok
    · intro hall
      have hnil : missingColumns cols = [] := by
        rw [missingColumns, List.filter_eq_nil_iff]
        intro c hc
        simp [hall c hc]
      rw [validateSchema, if_pos hnil]
  · intro msg herr
    refine ⟨missingColumns cols, ?_, List.filter_sublist _, hmem⟩
    by_cases hnil : missingColumns cols = []
    · rw [validateSchema, if_pos hnil] at herr
      exact Except.noConfusion herr
    · rw [validateSchema, if_neg hnil] at herr
      injection herr with h
      exact h.symm

/-- Witness for C7: at `witnessCols` the validator fails and its message
names exactly `Entered` and `Nett`, in required-list order. -/
theorem validate_schema_exact_missing_witness :
    ∃ missing,
      "Missing required columns: Entered, Nett" =
        "Missing required columns: " ++ String.intercalate ", " missing ∧
      missing.Sublist REQUIRED_COLUMNS ∧
      ∀ c, c ∈ missing ↔ (c ∈ REQUIRED_COLUMNS ∧ c ∉ witnessCols) :=
  (validate_schema_exact_missing witnessCols).2
    "Missing required columns: Entered, Nett" (by rfl)

/-! ### Row-access lemmas -/

theorem getCell_cons (p : String × Cell) (rest : Row) (c : String) :
    getCell (p :: rest) c = if p.1 = c then p.2 else getCell rest c := by
  by_cases hp : p.1 = c <;> simp [getCell, List.find?, hp]

theorem getCell_map_replace (r : Row) (c : String) (v : Cell) :
    getCell (r.map (fun p => if p.1 = c then (c, v) else p)) c =
      if hasCol r c then v else Cell.null := by
  induction r with
  | nil => rfl
  | cons p rest ih =>
      by_cases hp : p.1 = c
      · simp [hasCol, List.map_cons, getCell_cons, hp]
      · have hcol : hasCol (p :: rest) c = hasCol rest c := by
          simp [hasCol, List.any_cons, hp]
        rw [List.map_cons, if_neg hp, getCell_cons, if_neg hp, ih, hcol]

theorem getCell_append_absent (r : Row) (c : String) (v : Cell)
    (h : hasCol r c = false) :
    getCell (r ++ [(c, v)]) c = v := by
  induction r with
  | nil => simp [getCell_cons, getCell]
  | cons p rest ih =>
      simp only [hasCol, List.any_cons, Bool.or_eq_false_iff,
        decide_eq_false_iff_not] at h
      simp only [hasCol] at ih
      simp [List.cons_append, getCell_cons, h.1, ih h.2]

theorem getCell_setCell_same (r : Row) (c : String) (v : Cell) :
    getCell (setCell r c v) c = v := by
  rw [setCell]
  by_cases h : hasCol r c
  · rw [if_pos h, getCell_map_replace, if_pos h]
  · rw [if_neg h, getCell_append_absent]
    exact Bool.eq_false_iff.mpr h

theorem getCell_map_replace_ne (r : Row) (c c' : String) (v : Cell)
    (hne : c' ≠ c) :
    getCell (r.map (fun p => if p.1 = c then (c, v) else p)) c' = getCell r c' := by
  induction r with
  | nil => rfl
  | cons p rest ih =>
      by_cases hp : p.1 = c
      · simp [List.map_cons, getCell_cons, hp, Ne.symm hne] at ih ⊢
        exact ih
      · simp [List.map_cons, getCell_cons, hp] at ih ⊢
        by_cases hq : p.1 = c'
        · simp [hq]
        · simp [hq, ih]

theorem getCell_append_ne (r : Row) (c c' : String) (v : Cell)
    (hne : c' ≠ c) :
    getCell (r ++ [(c, v)]) c' = getCell r c' := by
  induction r with
  | nil => simp [getCell_cons, getCell, Ne.symm hne]
  | cons p rest ih =>
      simp [List.cons_append, getCell_cons, ih]

theorem getCell_setCell_ne (r : Row) (c c' : String) (v : Cell)
    (hne : c' ≠ c) :
    getCell (setCell r c v) c' = getCell r c' := by
  rw [setCell]
  by_cases h : hasCol r c
  · rw [if_pos h, getCell_map_replace_ne r c c' v hne]
  · rw [if_neg h, getCell_append_ne r c c' v hne]

theorem mem_setColumn_rows (t : Table) (c : String) (g : Row → Cell) (r' : Row) :
    r' ∈ (setColumn t c g).rows ↔ ∃ r, r ∈ t.rows ∧ r' = setCell r c (g r) := by
  simp [setColumn, List.mem_map, eq_comm]

/-! ### Key-structure lemmas -/

theorem keys_map_replace (r : Row) (c : String) (v : Cell) :
    (r.map (fun p => if p.1 = c then (c, v) else p)).map Prod.fst = r.map Prod.fst := by
  induction r with
  | nil => rfl
  | cons p rest ih =>
      by_cases hp : p.1 = c <;> simp [hp, ih]

theorem hasCol_keys (r : Row) (c : String) :
    hasCol r c = (r.map Prod.fst).any (fun k => decide (k = c)) := by
  induction r with
  | nil => rfl
  | cons p rest ih =>
      simp only [hasCol, List.any_cons, List.map_cons] at ih ⊢
      rw [ih]

theorem hasCol_setCell_self (r : Row) (c : String) (v : Cell) :
    hasCol (setCell r c v) c = true := by
  rw [setCell]
  by_cases h : hasCol r c
  · rw [if_pos h, hasCol_keys, keys_map_replace, ← hasCol_keys]
    exact h
  · rw [if_neg h]
    simp [hasCol, List.any_append]

theorem hasCol_setCell_of (r : Row) (c c' : String) (v : Cell)
    (h : hasCol r c' = true) :
    hasCol (setCell r c v) c' = true := by
  rw [setCell]
  by_cases hc : hasCol r c
  · rw [if_pos hc, hasCol_keys, keys_map_replace, ← hasCol_keys]
    exact h
  · rw [if_neg hc]
    simp only [hasCol, List.any_append] at h ⊢
    rw [h, Bool.true_or]

theorem nodupKeys_setCell (r : Row) (c : String) (v : Cell)
    (h : NodupKeys r) : NodupKeys (setCell r c v) := by
  rw [setCell]
  by_cases hc : hasCol r c
  · rw [if_pos hc]
    unfold NodupKeys
    rw [keys_map_replace]
    exact h
  · rw [if_neg hc]
    have hnot : c ∉ r.map Prod.fst := by
      intro hmem
      apply hc
      rw [hasCol_keys]
      simp only [List.any_eq_true, decide_eq_true_eq]
      exact ⟨c, hmem, rfl⟩
    unfold NodupKeys at h ⊢
    rw [List.map_append]
    simp [List.nodup_append, h, hnot]

theorem map_replace_of_not_mem (c : String) (v : Cell) :
    ∀ r : Row, (∀ p ∈ r, p.1 ≠ c) →
      r.map (fun p => if p.1 = c then (c, v) else p) = r
  | [], _ => rfl
  | p :: rest, h => by
      rw [List.map_cons, if_neg (h p (List.mem_cons_self p rest)),
        map_replace_of_not_mem c v rest (fun q hq => h q (List.mem_cons_of_mem p hq))]

theorem map_replace_getCell :
    ∀ (r : Row) (c : String), NodupKeys r → hasCol r c = true →
      r.map (fun p => if p.1 = c then (c, getCell r c) else p) = r
  | [], c, _, hkey => by simp [hasCol] at hkey
  | p :: rest, c, hnd, hkey => by
      unfold NodupKeys at hnd
      rw [List.map_cons, List.nodup_cons] at hnd
      obtain ⟨hpk, hnd'⟩ := hnd
      by_cases hp : p.1 = c
      · have hv : getCell (p :: rest) c = p.2 := by rw [getCell_cons, if_pos hp]
        have hrest : ∀ q ∈ rest, q.1 ≠ c := by
          intro q hq hqc
          apply hpk
          rw [hp, ← hqc]
          exact List.mem_map_of_mem Prod.fst hq
        rw [hv, List.map_cons, if_pos hp, map_replace_of_not_mem c p.2 rest hrest]
        have : (c, p.2) = p := by rw [← hp]
        rw [this]
      · have hv : getCell (p :: rest) c = getCell rest c := by
          rw [getCell_cons, if_neg hp]
        have hkey' : hasCol rest c = true := by
          simpa [hasCol, List.any_cons, hp] using hkey
        rw [hv, List.map_cons, if_neg hp,
          map_replace_getCell rest c hnd' hkey']

theorem setCell_getCell_self (r : Row) (c : String)
    (hnd : NodupKeys r) (hkey : hasCol r c = true) :
    setCell r c (getCell r c) = r := by
  rw [setCell, if_pos hkey]
  exact map_replace_getCell r c hnd hkey

/-! ### Cell-level parse lemmas -/

theorem dateOrNull_strictDateParse (fmt : String → Option Int) (x : Cell) :
    dateOrNull (strictDateParse fmt x) = true := by
  cases x with
  | str s => rw [strictDateParse]; cases fmt s <;> rfl
  | null => rfl
  | date d => rfl
  | num q => rfl

theorem dateOrNull_lenientDateParse (x : Cell) :
    dateOrNull (lenientDateParse x) = true := by
  cases x with
  | str s => rw [lenientDateParse]; cases parseLenientDate s <;> rfl
  | null => rfl
  | date d => rfl
  | num q => rfl

theorem dateOrNull_dateColumnFn (cells : List Cell) (x : Cell) :
    dateOrNull (dateColumnFn cells x) = true := by
  rw [dateColumnFn]
  by_cases h1 : cells.all (strictDateOk parseDMY)
  · rw [if_pos h1]
    exact dateOrNull_strictDateParse parseDMY x
  · rw [if_neg h1]
    by_cases h2 : cells.all (strictDateOk parseDMYTime)
    · rw [if_pos h2]
      exact dateOrNull_strictDateParse parseDMYTime x
    · rw [if_neg h2]
      exact dateOrNull_lenientDateParse x

theorem strictDateOk_of_dateOrNull (fmt : String → Option Int) (x : Cell)
    (h : dateOrNull x = true) : strictDateOk fmt x = true := by
  cases x with
  | null => rfl
  | date d => rfl
  | str s => simp [dateOrNull] at h
  | num q => simp [dateOrNull] at h

theorem strictDateParse_of_dateOrNull (fmt : String → Option Int) (x : Cell)
    (h : dateOrNull x = true) : strictDateParse fmt x = x := by
  cases x with
  | null => rfl
  | date d => rfl
  | str s => simp [dateOrNull] at h
  | num q => simp [dateOrNull] at h

theorem dateColumnFn_of_all_dateOrNull (cells : List Cell)
    (h : ∀ x ∈ cells, dateOrNull x = true) (x : Cell) (hx : dateOrNull x = true) :
    dateColumnFn cells x = x := by
  have hall : cells.all (strictDateOk parseDMY) = true := by
    rw [List.all_eq_true]
    intro y hy
    exact strictDateOk_of_dateOrNull parseDMY y (h y hy)
  rw [dateColumnFn, if_pos hall]
  exact strictDateParse_of_dateOrNull parseDMY x hx

theorem numOrNull_toNumericCell (x : Cell) :
    numOrNull (toNumericCell x) = true := by
  cases x with
  | str s => rw [toNumericCell]; cases parseDecimal s <;> rfl
  | null => rfl
  | date d => rfl
  | num q => rfl

theorem toNumericCell_of_numOrNull (x : Cell) (h : numOrNull x = true) :
    toNumericCell x = x := by
  cases x with
  | null => rfl
  | num q => rfl
  | str s => simp [numOrNull] at h
  | date d => simp [numOrNull] at h

/-! ### Column-name lemmas -/

theorem mem_addColName_self (cols : List String) (c : String) :
    c ∈ addColName cols c := by
  rw [addColName]
  by_cases h : c ∈ cols
  · rw [if_pos h]; exact h
  · rw [if_neg h]; simp

theorem mem_addColName_of_mem (cols : List String) (c c' : String)
    (h : c' ∈ cols) : c' ∈ addColName cols c := by
  rw [addColName]
  by_cases hc : c ∈ cols
  · rw [if_pos hc]; exact h
  · rw [if_neg hc]; simp [h]

theorem addColName_of_mem (cols : List String) (c : String) (h : c ∈ cols) :
    addColName cols c = cols := by
  rw [addColName, if_pos h]

/-! ### Decomposition of `prepare_data` -/

theorem prepare_data_rows (t : Table) :
    (prepare_data t).rows = t.rows.map
      (prepRow (dateColumnFn (t.rows.map (fun r => getCell r "Entered")))
        (dateColumnFn ((parseDateCol t "Entered").rows.map (fun r => getCell r "Sent")))) := by
  simp only [prepare_data, NUMERIC_COLS, List.foldl_cons, List.foldl_nil,
    parseDateCol, coerceNumericCol, setColumn, List.map_map]
  rfl

theorem prepare_data_cols (t : Table) :
    (prepare_data t).cols =
      addColName (addColName (addColName (addColName (addColName (addColName
        (addColName (addColName t.cols "Entered") "Sent") "Qty") "List") "Nett")
        "Cost") "Gross_Margin") "Margin_%" := by
  simp only [prepare_data, NUMERIC_COLS, List.foldl_cons, List.foldl_nil,
    parseDateCol, coerceNumericCol, setColumn]

/-! ### The cells of a prepared row -/

theorem prepRowA_entered (fE fS : Cell → Cell) (r : Row) :
    getCell (prepRowA fE fS r) "Entered" = fE (getCell r "Entered") := by
  simp only [prepRowA]
  rw [getCell_setCell_ne _ _ _ _ (by decide), getCell_setCell_ne _ _ _ _ (by decide),
    getCell_setCell_ne _ _ _ _ (by decide), getCell_setCell_ne _ _ _ _ (by decide),
    getCell_setCell_ne _ _ _ _ (by decide), getCell_setCell_same]

theorem prepRowA_sent (fE fS : Cell → Cell) (r : Row) :
    getCell (prepRowA fE fS r) "Sent" = fS (getCell r "Sent") := by
  simp only [prepRowA]
  rw [getCell_setCell_ne _ _ _ _ (by decide), getCell_setCell_ne _ _ _ _ (by decide),
    getCell_setCell_ne _ _ _ _ (by decide), getCell_setCell_ne _ _ _ _ (by decide),
    getCell_setCell_same, getCell_setCell_ne _ _ _ _ (by decide)]

theorem prepRowA_qty (fE fS : Cell → Cell) (r : Row) :
    getCell (prepRowA fE fS r) "Qty" = toNumericCell (getCell r "Qty") := by
  simp only [prepRowA]
  rw [getCell_setCell_ne _ _ _ _ (by decide), getCell_setCell_ne _ _ _ _ (by decide),
    getCell_setCell_ne _ _ _ _ (by decide), getCell_setCell_same,
    getCell_setCell_ne _ _ _ _ (by decide), getCell_setCell_ne _ _ _ _ (by decide)]

theorem prepRowA_listcol (fE fS : Cell → Cell) (r : Row) :
    getCell (prepRowA fE fS r) "List" = toNumericCell (getCell r "List") := by
  simp only [prepRowA]
  rw [getCell_setCell_ne _ _ _ _ (by decide), getCell_setCell_ne _ _ _ _ (by decide),
    getCell_setCell_same, getCell_setCell_ne _ _ _ _ (by decide),
    getCell_setCell_ne _ _ _ _ (by decide), getCell_setCell_ne _ _ _ _ (by decide)]

theorem prepRowA_nett (fE fS : Cell → Cell) (r : Row) :
    getCell (prepRowA fE fS r) "Nett" = toNumericCell (getCell r "Nett") := by
  simp only [prepRowA]
  rw [getCell_setCell_ne _ _ _ _ (by decide), getCell_setCell_same,
    getCell_setCell_ne _ _ _ _ (by decide), getCell_setCell_ne _ _ _ _ (by decide),
    getCell_setCell_ne _ _ _ _ (by decide), getCell_setCell_ne _ _ _ _ (by decide)]

theorem prepRowA_cost (fE fS : Cell → Cell) (r : Row) :
    getCell (prepRowA fE fS r) "Cost" = toNumericCell (getCell r "Cost") := by
  simp only [prepRowA]
  rw [getCell_setCell_same, getCell_setCell_ne _ _ _ _ (by decide),
    getCell_setCell_ne _ _ _ _ (by decide), getCell_setCell_ne _ _ _ _ (by decide),
    getCell_setCell_ne _ _ _ _ (by decide), getCell_setCell_ne _ _ _ _ (by decide)]

theorem prepRowB_gm (fE fS : Cell → Cell) (r : Row) :
    getCell (prepRowB fE fS r) "Gross_Margin" =
      cellSub (getCell (prepRowA fE fS r) "Nett") (getCell (prepRowA fE fS r) "Cost") := by
  simp only [prepRowB]
  rw [getCell_setCell_same]

theorem prepRowB_ne (fE fS : Cell → Cell) (r : Row) (c : String)
    (h : c ≠ "Gross_Margin") :
    getCell (prepRowB fE fS r) c = getCell (prepRowA fE fS r) c := by
  simp only [prepRowB]
  rw [getCell_setCell_ne _ _ _ _ h]

theorem prepRow_marginCol (fE fS : Cell → Cell) (r : Row) :
    getCell (prepRow fE fS r) "Margin_%" =
      marginCell (getCell (prepRowB fE fS r) "Nett")
        (getCell (prepRowB fE fS r) "Gross_Margin") := by
  simp only [prepRow]
  rw [getCell_setCell_same]

theorem prepRow_ne (fE fS : Cell → Cell) (r : Row) (c : String)
    (h : c ≠ "Margin_%") :
    getCell (prepRow fE fS r) c = getCell (prepRowB fE fS r) c := by
  simp only [prepRow]
  rw [getCell_setCell_ne _ _ _ _ h]

theorem prepRow_entered (fE fS : Cell → Cell) (r : Row) :
    getCell (prepRow fE fS r) "Entered" = fE (getCell r "Entered") := by
  rw [prepRow_ne _ _ _ _ (by decide), prepRowB_ne _ _ _ _ (by decide), prepRowA_entered]

theorem prepRow_sent (fE fS : Cell → Cell) (r : Row) :
    getCell (prepRow fE fS r) "Sent" = fS (getCell r "Sent") := by
  rw [prepRow_ne _ _ _ _ (by decide), prepRowB_ne _ _ _ _ (by decide), prepRowA_sent]

theorem prepRow_qty (fE fS : Cell → Cell) (r : Row) :
    getCell (prepRow fE fS r) "Qty" = toNumericCell (getCell r "Qty") := by
  rw [prepRow_ne _ _ _ _ (by decide), prepRowB_ne _ _ _ _ (by decide), prepRowA_qty]

theorem prepRow_listcol (fE fS : Cell → Cell) (r : Row) :
    getCell (prepRow fE fS r) "List" = toNumericCell (getCell r "List") := by
  rw [prepRow_ne _ _ _ _ (by decide), prepRowB_ne _ _ _ _ (by decide), prepRowA_listcol]

theorem prepRow_nett (fE fS : Cell → Cell) (r : Row) :
    getCell (prepRow fE fS r) "Nett" = toNumericCell (getCell r "Nett") := by
  rw [prepRow_ne _ _ _ _ (by decide), prepRowB_ne _ _ _ _ (by decide), prepRowA_nett]

theorem prepRow_cost (fE fS : Cell → Cell) (r : Row) :
    getCell (prepRow fE fS r) "Cost" = toNumericCell (getCell r "Cost") := by
  rw [prepRow_ne _ _ _ _ (by decide), prepRowB_ne _ _ _ _ (by decide), prepRowA_cost]

theorem prepRow_gm_rel (fE fS : Cell → Cell) (r : Row) :
    getCell (prepRow fE fS r) "Gross_Margin" =
      cellSub (getCell (prepRow fE fS r) "Nett") (getCell (prepRow fE fS r) "Cost") := by
  rw [prepRow_ne _ _ _ _ (by decide), prepRowB_gm,
    prepRow_ne _ _ _ _ (by decide), prepRowB_ne _ _ _ _ (by decide),
    prepRow_ne _ _ _ _ (by decide), prepRowB_ne _ _ _ _ (by decide)]

theorem prepRow_margin_rel (fE fS : Cell → Cell) (r : Row) :
    getCell (prepRow fE fS r) "Margin_%" =
      marginCell (getCell (prepRow fE fS r) "Nett")
        (getCell (prepRow fE fS r) "Gross_Margin") := by
  rw [prepRow_marginCol, prepRow_ne _ _ _ _ (by decide), prepRow_ne _ _ _ _ (by decide)]

/-! ### Establishment and fixing of the prepared-row invariant -/

theorem nodupKeys_prepRow (fE fS : Cell → Cell) (r : Row) (h : NodupKeys r) :
    NodupKeys (prepRow fE fS r) := by
  simp only [prepRow, prepRowB, prepRowA]
  exact nodupKeys_setCell _ _ _ (nodupKeys_setCell _ _ _ (nodupKeys_setCell _ _ _
    (nodupKeys_setCell _ _ _ (nodupKeys_setCell _ _ _ (nodupKeys_setCell _ _ _
      (nodupKeys_setCell _ _ _ (nodupKeys_setCell _ _ _ h)))))))

theorem hasCol_prepRow (fE fS : Cell → Cell) (r : Row) :
    ∀ c ∈ PREP_COLS, hasCol (prepRow fE fS r) c = true := by
  intro c hc
  simp only [prepRow, prepRowB, prepRowA]
  simp only [PREP_COLS] at hc
  fin_cases hc
  · exact hasCol_setCell_of _ _ _ _ (hasCol_setCell_of _ _ _ _ (hasCol_setCell_of _ _ _ _
      (hasCol_setCell_of _ _ _ _ (hasCol_setCell_of _ _ _ _ (hasCol_setCell_of _ _ _ _
        (hasCol_setCell_of _ _ _ _ (hasCol_setCell_self _ _ _)))))))
  · exact hasCol_setCell_of _ _ _ _ (hasCol_setCell_of _ _ _ _ (hasCol_setCell_of _ _ _ _
      (hasCol_setCell_of _ _ _ _ (hasCol_setCell_of _ _ _ _ (hasCol_setCell_of _ _ _ _
        (hasCol_setCell_self _ _ _))))))
  · exact hasCol_setCell_of _ _ _ _ (hasCol_setCell_of _ _ _ _ (hasCol_setCell_of _ _ _ _
      (hasCol_setCell_of _ _ _ _ (hasCol_setCell_of _ _ _ _ (hasCol_setCell_self _ _ _)))))
  · exact hasCol_setCell_of _ _ _ _ (hasCol_setCell_of _ _ _ _ (hasCol_setCell_of _ _ _ _
      (hasCol_setCell_of _ _ _ _ (hasCol_setCell_self _ _ _))))
  · exact hasCol_setCell_of _ _ _ _ (hasCol_setCell_of _ _ _ _ (hasCol_setCell_of _ _ _ _
      (hasCol_setCell_self _ _ _)))
  · exact hasCol_setCell_of _ _ _ _ (hasCol_setCell_of _ _ _ _ (hasCol_setCell_self _ _ _))
  · exact hasCol_setCell_of _ _ _ _ (hasCol_setCell_self _ _ _)
  · exact hasCol_setCell_self _ _ _

theorem prepRow_prepared (fE fS : Cell → Cell)
    (hE : ∀ x, dateOrNull (fE x) = true)
    (hS : ∀ x, dateOrNull (fS x) = true)
    (r : Row) (hnd : NodupKeys r) :
    PreparedRow (prepRow fE fS r) := by
  refine ⟨nodupKeys_prepRow fE fS r hnd, hasCol_prepRow fE fS r,
    ?_, ?_, ?_, ?_, ?_, ?_, ?_, ?_⟩
  · rw [prepRow_entered]; exact hE _
  · rw [prepRow_sent]; exact hS _
  · rw [prepRow_qty]; exact numOrNull_toNumericCell _
  · rw [prepRow_listcol]; exact numOrNull_toNumericCell _
  · rw [prepRow_nett]; exact numOrNull_toNumericCell _
  · rw [prepRow_cost]; exact numOrNull_toNumericCell _
  · exact prepRow_gm_rel fE fS r
  · exact prepRow_margin_rel fE fS r

theorem prepRow_fixed (fE fS : Cell → Cell) (r : Row) (hp : PreparedRow r)
    (hEid : fE (getCell r "Entered") = getCell r "Entered")
    (hSid : fS (getCell r "Sent") = getCell r "Sent") :
    prepRow fE fS r = r := by
  obtain ⟨hnd, hkeys, hE, hS, hq, hl, hn, hc, hgm, hm⟩ := hp
  have hA : prepRowA fE fS r = r := by
    simp only [prepRowA]
    rw [hEid, setCell_getCell_self r "Entered" hnd (hkeys _ (by decide))]
    rw [hSid, setCell_getCell_self r "Sent" hnd (hkeys _ (by decide))]
    rw [toNumericCell_of_numOrNull _ hq, setCell_getCell_self r "Qty" hnd (hkeys _ (by decide))]
    rw [toNumericCell_of_numOrNull _ hl, setCell_getCell_self r "List" hnd (hkeys _ (by decide))]
    rw [toNumericCell_of_numOrNull _ hn, setCell_getCell_self r "Nett" hnd (hkeys _ (by decide))]
    rw [toNumericCell_of_numOrNull _ hc, setCell_getCell_self r "Cost" hnd (hkeys _ (by decide))]
  have hB : prepRowB fE fS r = r := by
    simp only [prepRowB]
    rw [hA, ← hgm, setCell_getCell_self r "Gross_Margin" hnd (hkeys _ (by decide))]
  simp only [prepRow]
  rw [hB, ← hm, setCell_getCell_self r "Margin_%" hnd (hkeys _ (by decide))]

theorem prepare_establishes (t : Table) (h : ∀ r ∈ t.rows, NodupKeys r) :
    (∀ c ∈ PREP_COLS, c ∈ (prepare_data t).cols) ∧
    ∀ r ∈ (prepare_data t).rows, PreparedRow r := by
  constructor
  · intro c hc
    rw [prepare_data_cols]
    simp only [PREP_COLS] at hc
    fin_cases hc
    · exact mem_addColName_of_mem _ _ _ (mem_addColName_of_mem _ _ _
        (mem_addColName_of_mem _ _ _ (mem_addColName_of_mem _ _ _
          (mem_addColName_of_mem _ _ _ (mem_addColName_of_mem _ _ _
            (mem_addColName_of_mem _ _ _ (mem_addColName_self _ _)))))))
    · exact mem_addColName_of_mem _ _ _ (mem_addColName_of_mem _ _ _
        (mem_addColName_of_mem _ _ _ (mem_addColName_of_mem _ _ _
          (mem_addColName_of_mem _ _ _ (mem_addColName_of_mem _ _ _
            (mem_addColName_self _ _))))))
    · exact mem_addColName_of_mem _ _ _ (mem_addColName_of_mem _ _ _
        (mem_addColName_of_mem _ _ _ (mem_addColName_of_mem _ _ _
          (mem_addColName_of_mem _ _ _ (mem_addColName_self _ _)))))
    · exact mem_addColName_of_mem _ _ _ (mem_addColName_of_mem _ _ _
        (mem_addColName_of_mem _ _ _ (mem_addColName_of_mem _ _ _
          (mem_addColName_self _ _))))
    · exact mem_addColName_of_mem _ _ _ (mem_addColName_of_mem _ _ _
        (mem_addColName_of_mem _ _ _ (mem_addColName_self _ _)))
    · exact mem_addColName_of_mem _ _ _ (mem_addColName_of_mem _ _ _
        (mem_addColName_self _ _))
    · exact mem_addColName_of_mem _ _ _ (mem_addColName_self _ _)
    · exact mem_addColName_self _ _
  · intro r' hr'
    rw [prepare_data_rows] at hr'
    obtain ⟨r, hr, rfl⟩ := List.mem_map.mp hr'
    exact prepRow_prepared _ _ (fun x => dateOrNull_dateColumnFn _ x)
      (fun x => dateOrNull_dateColumnFn _ x) r (h r hr)

/-! ## Claim C8: `prepare_data` is idempotent -/

set_option maxHeartbeats 1000000 in
/-- **C8.** Normalisation is idempotent: re-applying `prepare_data` to an
already-prepared table yields the same table — re-parsing an
already-parsed date (`pd.to_datetime` passes datetimes through) or number
(`pd.to_numeric` passes floats through) is a no-op, and the recomputed
`Gross_Margin` and `Margin_%` coincide with the stored ones.  The
hypothesis says each row has no duplicate column keys (always true of a
pandas table). -/
theorem prepare_data_idempotent (t : Table)
    (h : ∀ r ∈ t.rows, NodupKeys r) :
    prepare_data (prepare_data t) = prepare_data t := by
  obtain ⟨hcols, hrows⟩ := prepare_establishes t h
  have hrows2 : (prepare_data (prepare_data t)).rows = (prepare_data t).rows := by
    rw [prepare_data_rows (prepare_data t)]
    have hfix : ∀ r ∈ (prepare_data t).rows,
        prepRow
          (dateColumnFn ((prepare_data t).rows.map (fun row => getCell row "Entered")))
          (dateColumnFn ((parseDateCol (prepare_data t) "Entered").rows.map
            (fun row => getCell row "Sent"))) r = r := by
      intro r hr
      have hpr := hrows r hr
      apply prepRow_fixed _ _ r hpr
      · apply dateColumnFn_of_all_dateOrNull
        · intro x hx
          obtain ⟨r', hr', rfl⟩ := List.mem_map.mp hx
          exact (hrows r' hr').2.2.1
        · exact hpr.2.2.1
      · apply dateColumnFn_of_all_dateOrNull
        · intro x hx
          obtain ⟨r', hr', rfl⟩ := List.mem_map.mp hx
          simp only [parseDateCol] at hr'
          obtain ⟨r0, hr0, rfl⟩ := (mem_setColumn_rows _ _ _ _).mp hr'
          rw [getCell_setCell_ne _ _ _ _ (by decide)]
          exact (hrows r0 hr0).2.2.2.1
        · exact hpr.2.2.2.1
    have hfix' : ∀ r ∈ (prepare_data t).rows,
        prepRow
          (dateColumnFn ((prepare_data t).rows.map (fun row => getCell row "Entered")))
          (dateColumnFn ((parseDateCol (prepare_data t) "Entered").rows.map
            (fun row => getCell row "Sent"))) r = id r := hfix
    rw [List.map_congr_left hfix', List.map_id]
  have hcols2 : (prepare_data (prepare_data t)).cols = (prepare_data t).cols := by
    rw [prepare_data_cols (prepare_data t),
      addColName_of_mem _ _ (hcols "Entered" (by decide)),
      addColName_of_mem _ _ (hcols "Sent" (by decide)),
      addColName_of_mem _ _ (hcols "Qty" (by decide)),
      addColName_of_mem _ _ (hcols "List" (by decide)),
      addColName_of_mem _ _ (hcols "Nett" (by decide)),
      addColName_of_mem _ _ (hcols "Cost" (by decide)),
      addColName_of_mem _ _ (hcols "Gross_Margin" (by decide)),
      addColName_of_mem _ _ (hcols "Margin_%" (by decide))]
  have hext : ∀ a b : Table, a.cols = b.cols → a.rows = b.rows → a = b := by
    intro a b hc hr
    cases a
    cases b
    cases hc
    cases hr
    rfl
  exact hext _ _ hcols2 hrows2

/-- Witness for C8 at the concrete table. -/
theorem prepare_data_idempotent_witness :
    prepare_data (prepare_data idemWitnessTable) = prepare_data idemWitnessTable :=
  prepare_data_idempotent idemWitnessTable (by decide)

/-! ## Claim C9: frame effect of normalisation -/

/-- **C9.** `prepare_data` keeps the row count, removes no column, and adds
only the two derived columns `Gross_Margin` and `Margin_%` (at the end, in
that order, and only those not already present): the output column list is
exactly the input list plus the missing derived names. -/
theorem prepare_data_frame_effect (t : Table)
    (h : ∀ c ∈ REQUIRED_COLUMNS, c ∈ t.cols) :
    (prepare_data t).rows.length = t.rows.length ∧
    (prepare_data t).cols =
      t.cols ++ (["Gross_Margin", "Margin_%"].filter (fun c => decide (c ∉ t.cols))) := by
  constructor
  · rw [prepare_data_rows, List.length_map]
  · rw [prepare_data_cols,
      addColName_of_mem _ _ (h "Entered" (by decide)),
      addColName_of_mem _ _ (h "Sent" (by decide)),
      addColName_of_mem _ _ (h "Qty" (by decide)),
      addColName_of_mem _ _ (h "List" (by decide)),
      addColName_of_mem _ _ (h "Nett" (by decide)),
      addColName_of_mem _ _ (h "Cost" (by decide))]
    by_cases hg : "Gross_Margin" ∈ t.cols
    · rw [addColName_of_mem _ _ hg]
      by_cases hm : "Margin_%" ∈ t.cols
      · rw [addColName_of_mem _ _ hm]
        simp [List.filter, hg, hm]
      · have houter : addColName t.cols "Margin_%" = t.cols ++ ["Margin_%"] := by
          rw [addColName, if_neg hm]
        rw [houter]
        simp [List.filter, hg, hm]
    · have hinner : addColName t.cols "Gross_Margin" = t.cols ++ ["Gross_Margin"] := by
        rw [addColName, if_neg hg]
      rw [hinner]
      by_cases hm : "Margin_%" ∈ t.cols
      · rw [addColName_of_mem _ _ (List.mem_append_left _ hm)]
        simp [List.filter, hg, hm]
      · have hm' : "Margin_%" ∉ t.cols ++ ["Gross_Margin"] := by
          simp only [List.mem_append, List.mem_singleton]
          rintro (hin | heq)
          · exact hm hin
          · exact absurd heq (by decide)
        have houter : addColName (t.cols ++ ["Gross_Margin"]) "Margin_%" =
            (t.cols ++ ["Gross_Margin"]) ++ ["Margin_%"] := by
          rw [addColName, if_neg hm']
        rw [houter]
        simp [List.filter, hg, hm]

/-- Witness for C9 at the concrete table. -/
theorem prepare_data_frame_effect_witness :
    (prepare_data frameWitnessTable).rows.length = frameWitnessTable.rows.length ∧
    (prepare_data frameWitnessTable).cols =
      frameWitnessTable.cols ++
        (["Gross_Margin", "Margin_%"].filter (fun c => decide (c ∉ frameWitnessTable.cols))) :=
  prepare_data_frame_effect frameWitnessTable (by decide)

/-! ## Claim C5: `Margin_%` null-safety after normalisation -/

/-- **C5.** In every row of a prepared table: when the (coerced) `Nett`
value is `0`, `Margin_%` is null — the masked assignment never divides
there; when `Nett` is a non-zero number and `Cost` a number, `Margin_%` is
`round((Nett - Cost) / Nett * 100, 1)` (round half to even, one decimal). -/
theorem margin_pct_null_safety (t : Table) (r : Row)
    (hr : r ∈ (prepare_data t).rows) :
    (getCell r "Nett" = Cell.num 0 → getCell r "Margin_%" = Cell.null) ∧
    (∀ q c, getCell r "Nett" = Cell.num q → q ≠ 0 → getCell r "Cost" = Cell.num c →
      getCell r "Margin_%" = Cell.num (round1 ((q - c) / q * 100))) := by
  rw [prepare_data] at hr
  rw [mem_setColumn_rows] at hr
  obtain ⟨r4, hr4, rfl⟩ := hr
  rw [mem_setColumn_rows] at hr4
  obtain ⟨r3, hr3, rfl⟩ := hr4
  have hnett4 : ("Nett" : String) ≠ "Gross_Margin" := by decide
  have hcost4 : ("Cost" : String) ≠ "Gross_Margin" := by decide
  have hnett5 : ("Nett" : String) ≠ "Margin_%" := by decide
  have hcost5 : ("Cost" : String) ≠ "Margin_%" := by decide
  have hN : getCell (setCell (setCell r3 "Gross_Margin"
      (cellSub (getCell r3 "Nett") (getCell r3 "Cost"))) "Margin_%"
      (marginCell (getCell (setCell r3 "Gross_Margin"
        (cellSub (getCell r3 "Nett") (getCell r3 "Cost"))) "Nett")
        (getCell (setCell r3 "Gross_Margin"
          (cellSub (getCell r3 "Nett") (getCell r3 "Cost"))) "Gross_Margin")))
      "Nett" = getCell r3 "Nett" := by
    rw [getCell_setCell_ne _ _ _ _ hnett5, getCell_setCell_ne _ _ _ _ hnett4]
  have hC : getCell (setCell (setCell r3 "Gross_Margin"
      (cellSub (getCell r3 "Nett") (getCell r3 "Cost"))) "Margin_%"
      (marginCell (getCell (setCell r3 "Gross_Margin"
        (cellSub (getCell r3 "Nett") (getCell r3 "Cost"))) "Nett")
        (getCell (setCell r3 "Gross_Margin"
          (cellSub (getCell r3 "Nett") (getCell r3 "Cost"))) "Gross_Margin")))
      "Cost" = getCell r3 "Cost" := by
    rw [getCell_setCell_ne _ _ _ _ hcost5, getCell_setCell_ne _ _ _ _ hcost4]
  have hM : getCell (setCell (setCell r3 "Gross_Margin"
      (cellSub (getCell r3 "Nett") (getCell r3 "Cost"))) "Margin_%"
      (marginCell (getCell (setCell r3 "Gross_Margin"
        (cellSub (getCell r3 "Nett") (getCell r3 "Cost"))) "Nett")
        (getCell (setCell r3 "Gross_Margin"
          (cellSub (getCell r3 "Nett") (getCell r3 "Cost"))) "Gross_Margin")))
      "Margin_%" =
      marginCell (getCell r3 "Nett") (cellSub (getCell r3 "Nett") (getCell r3 "Cost")) := by
    rw [getCell_setCell_same, getCell_setCell_ne _ _ _ _ hnett4, getCell_setCell_same]
  constructor
  · intro h0
    rw [hN] at h0
    rw [hM, h0]
    simp [marginCell, nettNonzeroMask]
  · intro q c hq hq0 hc
    rw [hN] at hq
    rw [hC] at hc
    rw [hM, hq, hc]
    simp [marginCell, nettNonzeroMask, cellSub, hq0]

/-- Witness for C5: on the concrete zero-`Nett` row the prepared `Margin_%`
is null. -/
theorem margin_pct_null_safety_witness :
    getCell zeroNettPrepared "Margin_%" = Cell.null :=
  (margin_pct_null_safety zeroNettTable zeroNettPrepared (by decide)).1 (by decide)

end SalesDashboard
